import Mathlib

/-!
Verification of the nucleosynthesis population-dynamics simulator
(src/nucleosynthesis.py) against its specification.

The script is embedded shallowly over exact rationals:

* numpy float arithmetic is modelled by exact `ℚ` arithmetic;
* the two irrational float constants of the source, `np.pi` and `np.log(2)`,
  are modelled by fixed rational stand-ins `npPi` and `npLog2` (see their
  doc comments: every result proved below is insensitive to the exact
  values, `npPi` cancels algebraically and only the sign and coarse size of
  `npLog2` matter);
* `math.inf` entries of the half-life table and the `inf` produced by
  numpy division `1/0` are modelled with `Option ℚ` (`none` = infinity);
* fallible array indexing (a Python `IndexError`) is modelled by
  `Option`-valued lookups, so a whole timestep update that would crash the
  interpreter evaluates to `none`.
-/

namespace Nucleo

/-- One time slice of the population array `pop[t]`, a 6 x 7 matrix. -/
abbrev Pop := List (List ℚ)

/-- Bounds-checked lookup `m[z][n]` of a 2-D list table (numpy raises on an
out-of-range index; here that is `none`). -/
def tabGet {α : Type} (m : List (List α)) (z n : ℕ) : Option α :=
  (m.get? z).bind (fun row => row.get? n)

/-- Bounds-checked write `m[z][n] = v`. -/
def writePop (p : Pop) (z n : ℕ) (v : ℚ) : Option Pop := do
  let row ← p.get? z
  let _ ← row.get? n
  some (p.set z (row.set n v))

/-- In-place `m[z][n] += v`. -/
def addPop (p : Pop) (z n : ℕ) (v : ℚ) : Option Pop := do
  let cur ← tabGet p z n
  writePop p z n (cur + v)

/-- In-place `m[z][n] -= v`. -/
def subPop (p : Pop) (z n : ℕ) (v : ℚ) : Option Pop := do
  let cur ← tabGet p z n
  writePop p z n (cur - v)

/-- numpy integer indexing into an axis of length `size`: a negative index
`i` with `-size ≤ i` counts from the end, anything else out of
`[-size, size)` raises. -/
def npIndex (i : ℤ) (size : ℕ) : Option ℕ :=
  if 0 ≤ i then (if i < (size : ℤ) then some i.toNat else none)
  else (if -(size : ℤ) ≤ i then some (i + size).toNat else none)

/-- `STEP = 119e-3`, the temporal step size. -/
def STEP : ℚ := 119 / 1000

/-- `SECOND = 1/STEP`. -/
def SECOND : ℚ := 1 / STEP

/-- `MILLISECOND = SECOND*1e-3`. -/
def MILLISECOND : ℚ := SECOND * (1 / 1000)

/-- `MINUTE = 60*SECOND`. -/
def MINUTE : ℚ := 60 * SECOND

/-- `DAY = 86400*SECOND`. -/
def DAY : ℚ := 86400 * SECOND

/-- `YEAR = 3.154e7*SECOND`. -/
def YEAR : ℚ := 31540000 * SECOND

/-- The decay rule table `Rules`: 0 = stable, 1 = beta+, 2 = beta-,
3 = proton, 4 = neutron, 5 = alpha. -/
def Rules : List (List ℕ) :=
  [[0,0,2,4,4,4,4],
   [1,0,0,4,2,4,2],
   [3,3,3,0,0,2,2],
   [3,3,3,1,5,0,2],
   [3,3,3,1,3,0,0],
   [3,3,3,1,1,1,0]]

/-- Decay rule of cell `(Z, N)` (a bounds-checked `Rules[Z,N]`). -/
def ruleAt (Z N : ℕ) : Option ℕ := tabGet Rules Z N

/-- The matrix of atomic radii: each row of `Radius` is `np.ones(7)` times a
per-element radius, and the whole matrix is then scaled by `1e-12`. -/
def Radius : List (List ℚ) :=
  [List.replicate 7 53, List.replicate 7 31, List.replicate 7 167,
   List.replicate 7 112, List.replicate 7 87, List.replicate 7 67].map
    (fun row => row.map (fun r => r * (1 / 10 ^ 12)))

/-- The half-life matrix `Thalf` before inversion; `none` models the
`math.inf` entries marking stable isotopes. -/
def Thalf : List (List (Option ℚ))  :=
  [[none, none, some ((123/10) * YEAR), some 0, some 0, some 0, some 0],
   [some 0, none, none, some 0, some ((8067/10) * MILLISECOND), some 0,
    some (119 * MILLISECOND)],
   [some 0, some 0, some 0, none, none, some (839 * MILLISECOND),
    some ((1783/10) * MILLISECOND)],
   [some 0, some 0, some 0, some (532 * DAY), some 0, none,
    some ((15/10) * 1000000 * YEAR)],
   [some 0, some 0, some 0, some 0, some (770 * MILLISECOND), some 0, none],
   [some 0, some 0, some 0, some ((1265/10) * MILLISECOND),
    some ((192/10) * SECOND), some (20 * MINUTE), none]]

/-- Entrywise reciprocal, with the extended semantics numpy floats give to
`Thalf = 1/Thalf`: the reciprocal of `math.inf` is `0`, and the reciprocal
of `0` is `inf` (still modelled as `none`). -/
def invertEntry : Option ℚ → Option ℚ
  | none => some 0
  | some h => if h = 0 then none else some (1 / h)

/-- The inverted half-life table actually used by the simulator, each entry
holding `1/half_life` (with `none` = infinite rate for an original `0`
half-life). -/
def invThalf : List (List (Option ℚ)) := Thalf.map (fun row => row.map invertEntry)

/-- Inverted half-life of cell `(Z, N)` (a bounds-checked `invThalf[Z,N]`). -/
def invThalfAt (Z N : ℕ) : Option (Option ℚ) := tabGet invThalf Z N

/-- Rational stand-in for the float constant `np.pi`. Its exact value is
irrelevant to everything proved below: it enters the update only through
`diff = ... * npPi * (...)^2 * onedArea` with `onedArea = 1/(20*npPi*r^2)`,
where it cancels exactly in `ℚ`. -/
def npPi : ℚ := 3141592653589793 / 10 ^ 15

/-- Rational stand-in for the float constant `np.log(2)`. All branch
decisions (`rate > 1`) and all sign conclusions proved below are stable for
any choice in the interval `(0.69, 0.70)`, which contains the real `ln 2`. -/
def npLog2 : ℚ := 6931471805599453 / 10 ^ 16

/-- Number of timesteps `Nt`. -/
def Nt : ℕ := 1000

/-- `Area = 20*np.pi*Radius[5][0]**2`, the reference cross-section (the
`(5,0)` lookup is inside the 6 x 7 literal table, so the `getD` default is
never used). -/
def Area : ℚ := 20 * npPi * ((tabGet Radius 5 0).getD 0) ^ 2

/-- `onedArea = 1/Area`. -/
def onedArea : ℚ := 1 / Area

/-- Starting number of hydrogen atoms. -/
def NHydrogen : ℚ := 1000000

/-- `decay_product(Z, N)`: look up the decay rule of the cell and return the
decay product. The Python function falls off the end (returns `None`) for a
rule code outside `0..5`, and `Rules[Z,N]` itself raises when `(Z,N)` is out
of the table; both are `none` here. The components are integers because the
Python arithmetic `Z-1`, `N-2`, ... can go negative. -/
def decay_product (Z N : ℕ) : Option (ℤ × ℤ) := do
  let rule ← ruleAt Z N
  match rule with
  | 0 => some ((Z : ℤ), (N : ℤ))
  | 1 => some ((Z : ℤ) - 1, (N : ℤ) + 1)
  | 2 => some ((Z : ℤ) + 1, (N : ℤ) - 1)
  | 3 => some ((Z : ℤ) - 1, (N : ℤ))
  | 4 => some ((Z : ℤ), (N : ℤ) - 1)
  | 5 => some ((Z : ℤ) - 2, (N : ℤ) - 2)
  | _ => none

/-- `fusion_product(atom1, atom2)`: the fusion product
`(Z1+Z2+1, N1+N2)` unless it would leave the grid, in which case `atom1`
itself is returned as the no-reaction sentinel. -/
def fusion_product (atom1 atom2 : ℕ × ℕ) : ℕ × ℕ :=
  if atom1.1 + atom2.1 + 1 > 5 then atom1
  else if atom1.2 + atom2.2 > 6 then atom1
  else (atom1.1 + atom2.1 + 1, atom1.2 + atom2.2)

/-- The body of one iteration of the inner fusion loop: compute the fusion
product of `atom1` and `atom2`; if the sentinel came back, `continue`,
otherwise move half of `diff` into the product cell of `cur` (= `pop[t+1]`)
and take half out of each reactant cell, with `diff` computed from the
populations of `prev` (= `pop[t]`). -/
def fusionUpdate (prev cur : Pop) (atom1 atom2 : ℕ × ℕ) : Option Pop :=
  let prod := fusion_product atom1 atom2
  if prod = atom1 then some cur
  else do
    let p1 ← tabGet prev atom1.1 atom1.2
    let p2 ← tabGet prev atom2.1 atom2.2
    let r1 ← tabGet Radius atom1.1 atom1.2
    let r2 ← tabGet Radius atom2.1 atom2.2
    let diff := min p1 p2 * npPi * (r1 + r2) ^ 2 * onedArea
    let cur1 ← addPop cur prod.1 prod.2 (diff / 2)
    let cur2 ← subPop cur1 atom1.1 atom1.2 (diff / 2)
    subPop cur2 atom2.1 atom2.2 (diff / 2)

/-- The decay step executed for `atom1` after the inner fusion loop. The
Python loop variable `atom2` still holds the second active cell at this
point; the partial-decay branch subtracts from column `atom2[0]` of row
`atom1[0]` (source line 142), reproducing the indexing of the source. -/
def decayUpdate (prev cur : Pop) (atom1 atom2 : ℕ × ℕ) : Option Pop := do
  let prod ← decay_product atom1.1 atom1.2
  let h ← invThalfAt atom1.1 atom1.2
  let p1 ← tabGet prev atom1.1 atom1.2
  let zi ← npIndex prod.1 6
  let ni ← npIndex prod.2 7
  match h with
  | none =>
    -- the stored rate is numpy `inf`, and `inf * np.log(2) > 1` holds
    let cur1 ← addPop cur zi ni p1
    writePop cur1 atom1.1 atom1.2 0
  | some r =>
    if r * npLog2 > 1 then do
      -- complete decay within one step
      let cur1 ← addPop cur zi ni p1
      writePop cur1 atom1.1 atom1.2 0
    else do
      -- first-order linear decay
      let diff := p1 * r * npLog2
      let cur1 ← addPop cur zi ni diff
      subPop cur1 atom1.1 atom2.1 diff

/-- Processing of a single outer-loop cell `atom1`: the inner loop
`for j in range(len(ii))` runs for `j = 0, 1` because `len(ii) = 2` (`ii` is
the pair of index arrays returned by `np.where`); a missing second active
cell is an `IndexError`, hence `none`. -/
def processAtom (prev : Pop) (active : List (ℕ × ℕ)) (cur : Pop)
    (atom1 : ℕ × ℕ) : Option Pop := do
  let a20 ← active.get? 0
  let cur1 ← fusionUpdate prev cur atom1 a20
  let a21 ← active.get? 1
  let cur2 ← fusionUpdate prev cur1 atom1 a21
  decayUpdate prev cur2 atom1 a21

/-- `np.where(pop[t] != 0)`: the row-major list of indices of the nonzero
cells of a time slice. -/
def activeList (p : Pop) : List (ℕ × ℕ) :=
  (p.enum.map (fun zrow =>
    zrow.2.enum.filterMap (fun nv =>
      if nv.2 ≠ 0 then some (zrow.1, nv.1) else none))).flatten

/-- One iteration of the main time-stepping loop, sending `pop[t]` to
`pop[t+1]`: start from a copy of `pop[t]`, then run the nested fusion loop
and the per-cell decay step over the active cells. -/
def stepFn (prev : Pop) : Option Pop :=
  let active := activeList prev
  List.foldlM (processAtom prev active) prev active

/-- The initial time slice: `np.zeros([Nt+1,6,7])` row 0 after
`pop[0,0,0] = NHydrogen` and `pop[0,0,1] = 1000`. -/
def initPop : Pop :=
  [[NHydrogen, 1000, 0, 0, 0, 0, 0],
   [0, 0, 0, 0, 0, 0, 0],
   [0, 0, 0, 0, 0, 0, 0],
   [0, 0, 0, 0, 0, 0, 0],
   [0, 0, 0, 0, 0, 0, 0],
   [0, 0, 0, 0, 0, 0, 0]]

/-- The population history: `popHist t` is `pop[t]`, or `none` as soon as
some earlier step crashed the interpreter. -/
def popHist : ℕ → Option Pop
  | 0 => some initPop
  | t + 1 => (popHist t).bind stepFn

/-- Comparator definition following the words of the specification (4.2): the
decay transformation prescribed for each rule code. Only codes 0..5 occur in
the rule table; the catch-all arm realises code 5 (alpha decay). -/
def decaySpecMap (rule : ℕ) (Z N : ℤ) : ℤ × ℤ :=
  match rule with
  | 0 => (Z, N)
  | 1 => (Z - 1, N + 1)
  | 2 => (Z + 1, N - 1)
  | 3 => (Z - 1, N)
  | 4 => (Z, N - 1)
  | _ => (Z - 2, N - 2)

/-- Whether an (optional) decay product lies inside the representable
6 x 7 grid. -/
def inGridPair : Option (ℤ × ℤ) → Bool
  | some p => decide (0 ≤ p.1 ∧ p.1 ≤ 5 ∧ 0 ≤ p.2 ∧ p.2 ≤ 6)
  | none => false

/-- Test state for claim C1: three active cells `(0,0)`, `(0,1)`, `(1,1)`. -/
def c1State : Pop :=
  [[100, 100, 0, 0, 0, 0, 0],
   [0, 100, 0, 0, 0, 0, 0],
   [0, 0, 0, 0, 0, 0, 0],
   [0, 0, 0, 0, 0, 0, 0],
   [0, 0, 0, 0, 0, 0, 0],
   [0, 0, 0, 0, 0, 0, 0]]

/-- Test state for claim C2: two active cells `(0,0)` and `(1,4)`; the
latter has a finite positive decay rate below 1 (half-life 806.7 ms). -/
def c2State : Pop :=
  [[100, 0, 0, 0, 0, 0, 0],
   [0, 0, 0, 0, 100, 0, 0],
   [0, 0, 0, 0, 0, 0, 0],
   [0, 0, 0, 0, 0, 0, 0],
   [0, 0, 0, 0, 0, 0, 0],
   [0, 0, 0, 0, 0, 0, 0]]

/-- Test state for claim C4: the whole population sits in cell `(5,6)`,
which is `Stable` and rejects fusion with itself. -/
def c4State : Pop :=
  [[0, 0, 0, 0, 0, 0, 0],
   [0, 0, 0, 0, 0, 0, 0],
   [0, 0, 0, 0, 0, 0, 0],
   [0, 0, 0, 0, 0, 0, 0],
   [0, 0, 0, 0, 0, 0, 0],
   [0, 0, 0, 0, 0, 0, 5]]

/-- Test state for claim C5 (counterexample): a single active cell `(0,0)`. -/
def c5State : Pop :=
  [[7, 0, 0, 0, 0, 0, 0],
   [0, 0, 0, 0, 0, 0, 0],
   [0, 0, 0, 0, 0, 0, 0],
   [0, 0, 0, 0, 0, 0, 0],
   [0, 0, 0, 0, 0, 0, 0],
   [0, 0, 0, 0, 0, 0, 0]]

/-- Test state for the witness of the amended claim C5: a single active
cell `(1,1)`. -/
def c5wState : Pop :=
  [[0, 0, 0, 0, 0, 0, 0],
   [0, 3, 0, 0, 0, 0, 0],
   [0, 0, 0, 0, 0, 0, 0],
   [0, 0, 0, 0, 0, 0, 0],
   [0, 0, 0, 0, 0, 0, 0],
   [0, 0, 0, 0, 0, 0, 0]]

end Nucleo

/- The Batteries implementations of rational arithmetic are marked
irreducible, which blocks kernel evaluation of concrete states; re-allow
unfolding them so that `decide` can evaluate the simulator. -/
attribute [local semireducible] Rat.add Rat.sub Rat.mul Rat.inv Rat.ofScientific

namespace Nucleo

/-- Fusion is accepted (the sentinel does not come back) exactly when the
product stays inside the grid. -/
theorem fusion_accepted_iff (a b : ℕ × ℕ) :
    fusion_product a b ≠ a ↔ a.1 + b.1 + 1 ≤ 5 ∧ a.2 + b.2 ≤ 6 := by
  unfold fusion_product
  split_ifs with h1 h2
  · exact iff_of_false (by simp) (by omega)
  · exact iff_of_false (by simp) (by omega)
  · refine iff_of_true (fun h => ?_) (by omega)
    rw [Prod.ext_iff] at h
    omega

/-- Claim C6: for every two nuclides `atom1 = (Z1,N1)` and `atom2 = (Z2,N2)`,
`fusion_product` returns `(Z1+Z2+1, N1+N2)` if and only if `Z1+Z2+1 ≤ 5` and
`N1+N2 ≤ 6`; otherwise it returns `atom1` unchanged as the no-reaction
sentinel. -/
theorem C6_fusion_product_spec (atom1 atom2 : ℕ × ℕ) :
    (fusion_product atom1 atom2 = (atom1.1 + atom2.1 + 1, atom1.2 + atom2.2) ↔
      atom1.1 + atom2.1 + 1 ≤ 5 ∧ atom1.2 + atom2.2 ≤ 6) ∧
    (¬(atom1.1 + atom2.1 + 1 ≤ 5 ∧ atom1.2 + atom2.2 ≤ 6) →
      fusion_product atom1 atom2 = atom1) := by
  constructor
  · constructor
    · intro h
      unfold fusion_product at h
      split_ifs at h with h1 h2
      · rw [Prod.ext_iff] at h; omega
      · rw [Prod.ext_iff] at h; omega
      · omega
    · intro h
      unfold fusion_product
      rw [if_neg (by omega), if_neg (by omega)]
  · intro h
    unfold fusion_product
    split_ifs with h1 h2
    · rfl
    · rfl
    · omega

/-- Witness for C6 at a concrete rejected pair: fusing `(5,0)` with `(5,0)`
returns the first argument as the no-reaction sentinel. -/
theorem C6_fusion_product_spec_witness : fusion_product (5, 0) (5, 0) = (5, 0) :=
  (C6_fusion_product_spec (5, 0) (5, 0)).2 (by decide)

/-- Claim C7: for every grid cell, `decay_product` realises exactly the
transformation the specification table prescribes for the cell rule code
(Stable, BetaPlus, BetaMinus, ProtonEmission, NeutronEmission, AlphaDecay);
in particular BetaPlus on `(1,0)` yields `(0,1)`. -/
theorem C7_decay_product_table :
    (∀ Z, Z < 6 → ∀ N, N < 7 →
      decay_product Z N = (ruleAt Z N).map (fun r => decaySpecMap r Z N)) ∧
    decay_product 1 0 = some (0, 1) := by
  constructor
  · decide
  · decide

/-- Witness for C7 at the concrete cell `(3,4)` (rule code 5, alpha decay). -/
theorem C7_decay_product_table_witness :
    decay_product 3 4 = (ruleAt 3 4).map (fun r => decaySpecMap r 3 4) :=
  C7_decay_product_table.1 3 (by decide) 4 (by decide)

/-- Claim C8: for the fixed rule table, the decay product of every grid cell
stays inside the representable grid `[0,5] x [0,6]`. -/
theorem C8_decay_in_grid :
    ∀ Z, Z < 6 → ∀ N, N < 7 → inGridPair (decay_product Z N) = true := by decide

/-- Witness for C8 at the concrete cell `(0,6)` (neutron emission at the
edge of the grid). -/
theorem C8_decay_in_grid_witness : inGridPair (decay_product 0 6) = true :=
  C8_decay_in_grid 0 (by decide) 6 (by decide)

/-- Claim C9 counterexample: cell `(4,5)` has rule code `Stable`, yet its
stored inverted half-life is not `0` but infinity (`none`): the source
stores a half-life of `0` (not `math.inf`) at `(4,5)`, and `1/0` is numpy
`inf`. -/
theorem C9_stable_inf_counterexample :
    ruleAt 4 5 = some 0 ∧ invThalfAt 4 5 = some none ∧
    invThalfAt 4 5 ≠ some (some 0) := by decide

/-- Claim C9 (amended): every cell whose rule code is `Stable` except
`(4,5)` stores inverted half-life `0`; cell `(4,5)` is `Stable` but its
stored half-life is `0`, so its inverted entry is infinite. -/
theorem C9_stable_zero_amended :
    ∀ Z, Z < 6 → ∀ N, N < 7 → ruleAt Z N = some 0 → (Z, N) ≠ (4, 5) →
      invThalfAt Z N = some (some 0) := by
  have key : ∀ Z, Z < 6 → ∀ N, N < 7 →
      ruleAt Z N ≠ some 0 ∨ (Z, N) = (4, 5) ∨ invThalfAt Z N = some (some 0) := by
    decide
  intro Z hZ N hN h1 h2
  rcases key Z hZ N hN with h | h | h
  · exact absurd h1 h
  · exact absurd h h2
  · exact h

/-- Witness for the amended C9 at the concrete stable cell `(0,0)`. -/
theorem C9_stable_zero_amended_witness : invThalfAt 0 0 = some (some 0) :=
  C9_stable_zero_amended 0 (by decide) 0 (by decide) (by decide) (by decide)

/-- Claim C10: `fusion_product` is symmetric: the reaction is accepted for
`(a,b)` exactly when it is accepted for `(b,a)` (acceptance observed as the
sentinel not coming back), and whenever it is accepted the two products
agree. -/
theorem C10_fusion_symmetric (a b : ℕ × ℕ) :
    (fusion_product a b ≠ a ↔ fusion_product b a ≠ b) ∧
    (fusion_product a b ≠ a → fusion_product a b = fusion_product b a) := by
  constructor
  · rw [fusion_accepted_iff, fusion_accepted_iff]
    omega
  · intro h
    rw [fusion_accepted_iff] at h
    unfold fusion_product
    split_ifs <;> first
      | (exfalso; omega)
      | (rw [Prod.ext_iff]; constructor <;> simp <;> omega)

/-- Witness for C10 at the concrete accepted pair `(1,2)`, `(0,1)`. -/
theorem C10_fusion_symmetric_witness :
    fusion_product (1, 2) (0, 1) = fusion_product (0, 1) (1, 2) :=
  (C10_fusion_symmetric (1, 2) (0, 1)).2 (by decide)

/-- Claim C1, code evaluated at a failing input: with active cells
`(0,0)`, `(0,1)`, `(1,1)`, the ordered pair `((1,1),(1,1))` is active and
its fusion is accepted (product `(3,2)`), so per the claim the product cell
would receive a strictly positive transfer; but the update leaves cell
`(3,2)` at `0`, because the inner loop only ever draws `atom2` from the
first two active cells (`for j in range(len(ii))` with `len(ii) = 2`). -/
theorem C1_pair_skipped :
    activeList c1State = [(0, 0), (0, 1), (1, 1)] ∧
    fusion_product (1, 1) (1, 1) = (3, 2) ∧
    (stepFn c1State).bind (fun q => tabGet q 3 2) = some 0 := by
  refine ⟨by decide, by decide, by decide⟩

/-- Claim C2, code evaluated at a failing input: with active cells `(0,0)`
and `(1,4)`, the partial decay of `(1,4)` (product `(2,3)`, rate about
0.102) is subtracted from cell `(1,1)` — row `atom1[0]`, column `atom2[0]`
of source line 142 — which was `0` and becomes negative, while the source
cell `(1,4)` keeps its decayed amount (it only loses its fusion halves:
`100 - 2*(diff locked by the two fusion pairs)/2 = 413620/4489`). -/
theorem C2_wrong_cell_debited :
    tabGet c2State 1 1 = some 0 ∧
    (stepFn c2State).bind (fun q => tabGet q 1 1) =
      some (-(824845144866334907 / 80670000000000000)) ∧
    (-(824845144866334907 / 80670000000000000) : ℚ) < 0 ∧
    (stepFn c2State).bind (fun q => tabGet q 1 4) = some (413620 / 4489) := by
  refine ⟨by decide, by decide, by norm_num, by decide⟩

/-- Claim C3, code evaluated at a failing input: in the simulated run
itself (seeds `pop[0,0,0] = 10^6`, `pop[0,0,1] = 1000`), the population of
cell `(3,0)` at timestep 4 is strictly negative: at t = 3 the whole
`(3,0)` population decays away (proton emission, infinite rate) and the
cell is zeroed, after which the partial decay of the later active cell
`(3,3)` is debited to `(3,0)` by the misindexed subtraction of source
line 142. -/
theorem C3_negative_population :
    (popHist 4).bind (fun q => tabGet q 3 0) =
      some (-(1962490540104315936437261 / 412490222690640000000000000000000)) ∧
    (-(1962490540104315936437261 / 412490222690640000000000000000000) : ℚ) < 0 := by
  constructor
  · decide
  · norm_num

/-- Claim C4, code evaluated at a failing input: with the whole population
in the `Stable`, self-fusion-rejecting cell `(5,6)`, the timestep update
does not leave the state unchanged — it crashes: only one active cell
exists, and the inner fusion loop unconditionally reads the second one
(`ii[0][1]`, an `IndexError`), modelled as `none`. -/
theorem C4_single_cell_crash :
    activeList c4State = [(5, 6)] ∧
    ruleAt 5 6 = some 0 ∧
    fusion_product (5, 6) (5, 6) = (5, 6) ∧
    stepFn c4State = none := by
  refine ⟨by decide, by decide, by decide, by decide⟩

/-- Claim C5 counterexample: for the concrete state whose only active cell
is `(0,0)`, the update of the next timestep does not produce any state at
all (the interpreter raises an `IndexError` in the inner fusion loop), so
no equality of nucleon-weighted masses between t and t+1 can hold. -/
theorem C5_no_conserving_successor :
    (activeList c5State).length = 1 ∧ stepFn c5State = none := by
  refine ⟨by decide, by decide⟩

/-- Claim C5 (amended): whenever exactly one cell is active at time t, the
timestep update fails with an index error (the inner fusion loop reads the
second active cell, which does not exist), so no t+1 state is produced. -/
theorem C5_single_active_fails (p : Pop) (h : (activeList p).length = 1) :
    stepFn p = none := by
  obtain ⟨a, ha⟩ := List.length_eq_one.mp h
  unfold stepFn
  rw [ha]
  show (processAtom p [a] p a).bind _ = none
  unfold processAtom
  cases hfu : fusionUpdate p p a a <;>
    simp [hfu, Option.bind, List.get?]

/-- Witness for the amended C5 at the concrete single-active-cell state
`c5wState`. -/
theorem C5_single_active_fails_witness :
    (activeList c5wState).length = 1 ∧ stepFn c5wState = none :=
  ⟨by decide, C5_single_active_fails c5wState (by decide)⟩

end Nucleo
